import Mathlib

/-!
Verification development for the csp-stars plugin of CosmoScout VR.

The repository contains two generations of the star renderer: an older
Gaia-capable one (src/src/Stars.hpp together with the second half of
src/src/Shaders.cpp) and a newer one (src/unnamed/part_003 with headers
part_004 / part_005).  The catalog parser, the binary star cache and the
ingestion orchestrator are embedded below directly from that C++ source.
Machine floats are modelled as exact rationals (a float32 value is a
rational, and IEEE rounding of the arithmetic is not modelled); all
quantities compared in the theorems are far from any rounding boundary.
C++ std::vector accesses with an out-of-range index are undefined
behaviour; the behavioural model below totalises them (an out-of-range
token reads as the empty string, which fails every parse), and the
question whether an access is in bounds is treated separately by an
explicit access-set predicate mirroring exactly the indices the code
dereferences.
-/

/-- Whitespace test of the C++ default locale, used by istream extraction
(`std::isspace` on the classic locale). -/
def isCppSpace (c : Char) : Bool :=
  c == ' ' || c == '\t' || c == '\n' || c == '\r' || c == '\x0b' || c == '\x0c'

/-- Value of a digit string, most significant digit first. -/
def natOfDigits (ds : List Char) : ℕ :=
  ds.foldl (fun a c => 10 * a + (c.toNat - 48)) 0

/-- Model of `fromString<int>` from Stars.cpp: `istringstream >> int`,
success iff the failbit is clear.  Leading whitespace is skipped, an
optional sign is read, and at least one digit is required; trailing
characters are ignored (they are simply not consumed). -/
def fromStringInt (s : String) : Option ℤ :=
  let cs := s.toList.dropWhile isCppSpace
  let signed : ℤ × List Char :=
    match cs with
    | '+' :: t => (1, t)
    | '-' :: t => (-1, t)
    | t => (1, t)
  let ds := signed.2.takeWhile Char.isDigit
  if ds.isEmpty then none else some (signed.1 * (natOfDigits ds : ℤ))

/-- The syntactic content of a successful C++ float extraction: sign,
value and length of the digit groups, and the optional exponent.  This
separates the character-level acceptance decision of `istringstream`
from the represented value. -/
structure Decimal where
  neg : Bool
  intDigits : ℕ
  fracDigits : ℕ
  fracLen : ℕ
  expNeg : Bool
  exp : ℕ
deriving DecidableEq, Repr

/-- The rational value a `Decimal` denotes:
`±(intDigits + fracDigits / 10^fracLen) · 10^±exp`. -/
def Decimal.toRat (d : Decimal) : ℚ :=
  let mant : ℚ :=
    (if d.neg then -1 else 1) * ((d.intDigits : ℚ) + (d.fracDigits : ℚ) / (10 : ℚ) ^ d.fracLen)
  if d.expNeg then mant / (10 : ℚ) ^ d.exp else mant * (10 : ℚ) ^ d.exp

/-- Exponent part of a C++ float extraction: optional sign, then at least
one digit; an `e` with no digits after it makes the whole extraction fail. -/
def parseExpPart (neg : Bool) (intDs fracDs : List Char) (t : List Char) : Option Decimal :=
  let se : Bool × List Char :=
    match t with
    | '+' :: u => (false, u)
    | '-' :: u => (true, u)
    | u => (false, u)
  let eds := se.2.takeWhile Char.isDigit
  if eds.isEmpty then none
  else some ⟨neg, natOfDigits intDs, natOfDigits fracDs, fracDs.length, se.1, natOfDigits eds⟩

/-- Character-level model of `istringstream >> float`: leading whitespace,
optional sign, digits with an optional point and fraction, an optional
exponent; at least one digit is required in the mantissa.  Trailing
characters are ignored (not consumed). -/
def parseDecimal (s : String) : Option Decimal :=
  let cs := s.toList.dropWhile isCppSpace
  let signed : Bool × List Char :=
    match cs with
    | '+' :: t => (false, t)
    | '-' :: t => (true, t)
    | t => (false, t)
  let intDs := signed.2.takeWhile Char.isDigit
  let rest := signed.2.dropWhile Char.isDigit
  let fracDs : List Char :=
    match rest with
    | '.' :: t => t.takeWhile Char.isDigit
    | _ => []
  let rest2 : List Char :=
    match rest with
    | '.' :: t => t.dropWhile Char.isDigit
    | t => t
  if intDs.isEmpty ∧ fracDs.isEmpty then none
  else
    match rest2 with
    | 'e' :: t => parseExpPart signed.1 intDs fracDs t
    | 'E' :: t => parseExpPart signed.1 intDs fracDs t
    | _ => some ⟨signed.1, natOfDigits intDs, natOfDigits fracDs, fracDs.length, false, 0⟩

/-- Model of `fromString<float>` from Stars.cpp: `istringstream >> float`,
success iff the failbit is clear; the represented value is kept as an
exact rational (IEEE rounding to float32 is not modelled). -/
def fromStringFloat (s : String) : Option ℚ :=
  (parseDecimal s).map Decimal.toRat

/-- `Stars::CatalogType` (src/src/Stars.hpp).  The newer header
(src/unnamed/part_005) has the same enum without `eGaia`; its three
catalog types behave identically to the first three here. -/
inductive CatalogType where
  | eHipparcos
  | eTycho
  | eTycho2
  | eGaia
deriving DecidableEq, Repr

/-- `Stars::CatalogColumn` (src/src/Stars.hpp). -/
inductive CatalogColumn where
  | eVmag
  | eBmag
  | ePara
  | eRect
  | eDecl
  | eHipp
deriving DecidableEq, Repr

/-- `Stars::cColumnMapping` (src/src/Shaders.cpp lines 290-296).  The
newer table (src/unnamed/part_003 lines 57-61) is the first three rows of
this one.  `-1` is the absent-column sentinel. -/
def cColumnMapping (t : CatalogType) (c : CatalogColumn) : ℤ :=
  match t, c with
  | .eHipparcos, .eVmag => 34
  | .eHipparcos, .eBmag => 32
  | .eHipparcos, .ePara => 11
  | .eHipparcos, .eRect => 8
  | .eHipparcos, .eDecl => 9
  | .eHipparcos, .eHipp => 31
  | .eTycho, .eVmag => 34
  | .eTycho, .eBmag => 32
  | .eTycho, .ePara => 11
  | .eTycho, .eRect => 8
  | .eTycho, .eDecl => 9
  | .eTycho, .eHipp => 31
  | .eTycho2, .eVmag => 19
  | .eTycho2, .eBmag => 17
  | .eTycho2, .ePara => -1
  | .eTycho2, .eRect => 2
  | .eTycho2, .eDecl => 3
  | .eTycho2, .eHipp => 23
  | .eGaia, .eVmag => 50
  | .eGaia, .eBmag => 55
  | .eGaia, .ePara => 9
  | .eGaia, .eRect => 5
  | .eGaia, .eDecl => 7
  | .eGaia, .eHipp => -1

/-- `Stars::Star` (src/src/Stars.hpp lines 145-151): one normalized
record; the five float fields are modelled as exact rationals. -/
structure StarRecord where
  mVMagnitude : ℚ
  mBMagnitude : ℚ
  mAscension : ℚ
  mDeclination : ℚ
  mParallax : ℚ
deriving DecidableEq, Repr

/-- Reading a token of the split line.  The C++ code indexes the
`items` vector directly; this total model returns the empty string (which
fails every parse) for an out-of-range index.  Whether the concrete index
is actually in range is the subject of the access-set predicate below. -/
def getItem (items : List String) (i : ℤ) : String :=
  if 0 ≤ i then items.getD i.toNat ("") else ("")

/-- `Vista::Pi` is a float constant; this is the float32 value nearest π. -/
def vistaPi : ℚ := 13176795 / 4194304

/-- One iteration of the line loop of `Stars::readStarsFromCatalog`
(src/unnamed/part_003 lines 513-561, identical in src/src/Shaders.cpp
lines 855-903), applied to the token vector `items` obtained by splitting
the line on the catalog delimiter.  `loadHipparcos` is the flag computed
at line 491: whether a Hipparcos catalog is configured.  Returns the list
of records appended for this line (empty or a singleton). -/
def readStarsFromCatalogLine (type : CatalogType) (loadHipparcos : Bool)
    (items : List String) : List StarRecord :=
  if 12 < items.length then
    if type ≠ CatalogType.eHipparcos ∧ loadHipparcos = true ∧
        (fromStringInt (getItem items (cColumnMapping type CatalogColumn.eHipp))).isSome = true then
      []
    else
      match fromStringFloat (getItem items (cColumnMapping type CatalogColumn.eVmag)),
            fromStringFloat (getItem items (cColumnMapping type CatalogColumn.eBmag)),
            fromStringFloat (getItem items (cColumnMapping type CatalogColumn.eRect)),
            fromStringFloat (getItem items (cColumnMapping type CatalogColumn.eDecl)) with
      | some vmag, some bmag, some asc, some decl =>
        let para : ℚ :=
          if 0 < cColumnMapping type CatalogColumn.ePara then
            (fromStringFloat (getItem items (cColumnMapping type CatalogColumn.ePara))).getD 0
          else 0
        [{ mVMagnitude := vmag
           mBMagnitude := bmag
           mAscension := (360 + 90 - asc) / 180 * vistaPi
           mDeclination := decl / 180 * vistaPi
           mParallax := para }]
      | _, _, _, _ => []
  else []

/-- The set of configured catalogs (the key set of the `mCatalogs` map). -/
structure CatalogCfg where
  hipparcos : Bool
  tycho : Bool
  tycho2 : Bool
  gaia : Bool
deriving DecidableEq, Repr

/-- Number of configured catalogs (`mCatalogs.size()`). -/
def cfgSize (c : CatalogCfg) : ℕ :=
  (if c.hipparcos then 1 else 0) + (if c.tycho then 1 else 0) +
  (if c.tycho2 then 1 else 0) + (if c.gaia then 1 else 0)

/-- The catalog bitmask written into / compared against the cache header:
`catalogs += pow(2, (int)type)` over the configured catalog map
(src/unnamed/part_003 lines 582-585 and 650-653). -/
def catalogBitmask (c : CatalogCfg) : ℕ :=
  (if c.hipparcos then 2 ^ 0 else 0) + (if c.tycho then 2 ^ 1 else 0) +
  (if c.tycho2 then 2 ^ 2 else 0) + (if c.gaia then 2 ^ 3 else 0)

/-- `Stars::cCacheVersion` (src/unnamed/part_003 line 67). -/
def cCacheVersion : ℕ := 3

/-- The deserialized content of a star cache file: the three `uint32`
header words followed by five float32 words per record
(src/unnamed/part_003 lines 587-601). -/
structure CacheFile where
  version : ℕ
  catalogs : ℕ
  numStars : ℕ
  records : List StarRecord
deriving DecidableEq, Repr

/-- `Star star{}` is value-initialized before the five `ReadFloat32`
calls; a read past the end of the buffer leaves the zero field in place. -/
def zeroStar : StarRecord := ⟨0, 0, 0, 0, 0⟩

/-- `Stars::writeStarCache` (src/unnamed/part_003 lines 581-616): header
version, catalog bitmask, `uint32` star count, then the records. -/
def writeStarCache (cfg : CatalogCfg) (mStars : List StarRecord) : CacheFile :=
  { version := cCacheVersion
    catalogs := catalogBitmask cfg
    numStars := mStars.length % 2 ^ 32
    records := mStars }

/-- `Stars::readStarCache` (src/unnamed/part_003 lines 620-681): returns
`false` without touching `mStars` when the version or the catalog bitmask
mismatches; otherwise appends `numStars` records (records missing from a
short buffer stay zero-initialized). -/
def readStarCache (cfg : CatalogCfg) (file : CacheFile) (mStars : List StarRecord) :
    Bool × List StarRecord :=
  if file.version ≠ cCacheVersion then (false, mStars)
  else if file.catalogs ≠ catalogBitmask cfg then (false, mStars)
  else (true, mStars ++ (file.records.take file.numStars ++
    List.replicate (file.numStars - file.records.length) zeroStar))

/-- Catalog selection of `Stars::init` (src/src/Shaders.cpp lines
752-781): if Gaia is configured it is read unconditionally and no other
catalog is read; otherwise Hipparcos, then Tycho, then Tycho2 — the last
only when Tycho is not configured. -/
def loadedCatalogs (c : CatalogCfg) : List CatalogType :=
  if c.gaia then [CatalogType.eGaia]
  else
    (if c.hipparcos then [CatalogType.eHipparcos] else []) ++
    (if c.tycho then [CatalogType.eTycho] else []) ++
    (if c.tycho2 ∧ ¬c.tycho then [CatalogType.eTycho2] else [])

/-- Whether `Stars::init` emits the Gaia-combination error message
(src/src/Shaders.cpp lines 759-762). -/
def gaiaConflictLogged (c : CatalogCfg) : Bool :=
  c.gaia && decide (1 < cfgSize c)

/-- `mSpectralColors` as filled by `Stars::init` (src/unnamed/part_003
lines 388-434): the 47 hard-coded spectral colors, kept as their hex
literals. -/
def mSpectralColors : List ℕ :=
  [0x9bb2ff, 0x9eb5ff, 0xa3b9ff, 0xaabfff, 0xb2c5ff, 0xbbccff, 0xc4d2ff,
   0xccd8ff, 0xd3ddff, 0xdae2ff, 0xdfe5ff, 0xe4e9ff, 0xe9ecff, 0xeeefff,
   0xf3f2ff, 0xf8f6ff, 0xfef9ff, 0xfff9fb, 0xfff7f5, 0xfff5ef, 0xfff3ea,
   0xfff1e5, 0xffefe0, 0xffeddb, 0xffebd6, 0xffe8ce, 0xffe6ca, 0xffe5c6,
   0xffe3c3, 0xffe2bf, 0xffe0bb, 0xffdfb8, 0xffddb4, 0xffdbb0, 0xffdaad,
   0xffd8a9, 0xffd6a5, 0xffd29c, 0xffd096, 0xffcc8f, 0xffc885, 0xffc178,
   0xffb765, 0xffa94b, 0xff9523, 0xff7b00, 0xff5200]

/-- A C++ `(int)` cast of a floating value: truncation toward zero. -/
def cppTruncToInt (q : ℚ) : ℤ := if 0 ≤ q then ⌊q⌋ else ⌈q⌉

/-- The color-table index computed in `Stars::buildStarVAO`
(src/unnamed/part_003 lines 690-697, identical in src/src/Shaders.cpp
lines 1033-1039): the B−V difference clamped to [−0.4, 2.0], normalized by
`(bvIndex - minIdx) / (maxIdx - minIdx) / step + 0.5`, cast to `int`. -/
def colorBucket (bMag vMag : ℚ) : ℤ :=
  let minIdx : ℚ := -(2 / 5)
  let maxIdx : ℚ := 2
  let step : ℚ := 1 / 20
  let bvIndex : ℚ := min maxIdx (max minIdx (bMag - vMag))
  let normalizedIndex : ℚ := (bvIndex - minIdx) / (maxIdx - minIdx) / step + 1 / 2
  cppTruncToInt normalizedIndex

/-- The spectral color selected for a star:
`mSpectralColors[(int)normalizedIndex]`. -/
def starColor (bMag vMag : ℚ) : ℕ :=
  mSpectralColors.getD (colorBucket bMag vMag).toNat 0

/-- `std::numeric_limits<float>::max()` = (2^24 − 1) · 2^104. -/
def floatMaxQ : ℚ := (2 ^ 24 - 1) * 2 ^ 104

/-- `std::numeric_limits<float>::min()` = 2^(−126), the smallest positive
normal float — not the most negative float. -/
def floatMinQ : ℚ := 1 / 2 ^ 126

/-- The loaded magnitude range tracked by `Stars::buildStarVAO`
(src/src/Shaders.cpp lines 1057-1058), with the accumulators initialized
as in the constructor (lines 311-312): min from
`numeric_limits<float>::max()`, max from `numeric_limits<float>::min()`. -/
def buildStarVAORange (mStars : List StarRecord) : ℚ × ℚ :=
  mStars.foldl
    (fun acc st => (min acc.1 st.mVMagnitude, max acc.2 st.mVMagnitude))
    (floatMaxQ, floatMinQ)

/-- `Stars::DrawMode` (src/unnamed/part_005 line 50). -/
inductive DrawMode where
  | ePoint
  | eSmoothPoint
  | eDisc
  | eSmoothDisc
  | eSprite
deriving DecidableEq, Repr

/-- The shader-relevant state of the newer `Stars` class
(src/unnamed/part_003): the current draw mode and HDR flag, the dirty
flag, and an abstraction of the linked shader program — the
(draw mode, HDR) pair its sources were generated from, `none` before the
first compilation. -/
structure ShaderState where
  mDrawMode : DrawMode
  mEnableHDR : Bool
  mShaderDirty : Bool
  mCompiled : Option (DrawMode × Bool)
deriving DecidableEq, Repr

/-- `Stars::setDrawMode` (src/unnamed/part_003 lines 79-84). -/
def setDrawMode (value : DrawMode) (s : ShaderState) : ShaderState :=
  if s.mDrawMode ≠ value then
    { s with mShaderDirty := true, mDrawMode := value }
  else s

/-- `Stars::setEnableHDR` (src/unnamed/part_003 lines 94-99). -/
def setEnableHDR (value : Bool) (s : ShaderState) : ShaderState :=
  if s.mEnableHDR ≠ value then
    { s with mShaderDirty := true, mEnableHDR := value }
  else s

/-- The shader-recompilation part of `Stars::Do` (src/unnamed/part_003
lines 221-258): when the dirty flag is set, the shaders are rebuilt from
the current draw mode and HDR flag and the flag is cleared.  The Bool
result records whether this call recompiled. -/
def starsDo (s : ShaderState) : ShaderState × Bool :=
  if s.mShaderDirty then
    ({ s with mCompiled := some (s.mDrawMode, s.mEnableHDR), mShaderDirty := false }, true)
  else (s, false)

/-- The `items` indices dereferenced by one iteration of the line loop of
`Stars::readStarsFromCatalog`, in evaluation order: nothing for a short
line; the cross-reference column when the de-duplication test runs; and,
unless that test skips the line, the four mandatory columns plus the
parallax column when its mapping entry is positive. -/
def accessedColumns (type : CatalogType) (loadHipparcos : Bool)
    (items : List String) : List ℤ :=
  if 12 < items.length then
    (if type ≠ CatalogType.eHipparcos ∧ loadHipparcos = true then
      [cColumnMapping type CatalogColumn.eHipp] else []) ++
    (if type ≠ CatalogType.eHipparcos ∧ loadHipparcos = true ∧
        (fromStringInt (getItem items (cColumnMapping type CatalogColumn.eHipp))).isSome = true then
      []
    else
      [cColumnMapping type CatalogColumn.eVmag, cColumnMapping type CatalogColumn.eBmag,
       cColumnMapping type CatalogColumn.eRect, cColumnMapping type CatalogColumn.eDecl] ++
      (if 0 < cColumnMapping type CatalogColumn.ePara then
        [cColumnMapping type CatalogColumn.ePara] else []))
  else []

/-- Every vector access of the line is with a non-negative index smaller
than the token count. -/
def accessesInBounds (type : CatalogType) (loadHipparcos : Bool)
    (items : List String) : Prop :=
  ∀ i ∈ accessedColumns type loadHipparcos items, 0 ≤ i ∧ i < (items.length : ℤ)

instance (type : CatalogType) (loadHipparcos : Bool) (items : List String) :
    Decidable (accessesInBounds type loadHipparcos items) := by
  unfold accessesInBounds; infer_instance

/-- The least token count under which every column access of the given
catalog type is in bounds: one more than the largest mapped index. -/
def minSafeTokens (type : CatalogType) : ℕ :=
  match type with
  | .eHipparcos => 35
  | .eTycho => 35
  | .eTycho2 => 24
  | .eGaia => 56

/-- Normal form of the color-table index: the clamped B−V value pushed
through the affine normalization, floored (the value is never negative,
so the C++ `(int)` truncation is the floor). -/
theorem colorBucket_eq_floor (bMag vMag : ℚ) :
    colorBucket bMag vMag =
      ⌊(min 2 (max (-(2 / 5)) (bMag - vMag)) + 2 / 5) * (25 / 3) + 1 / 2⌋ := by
  have hx : -(2 / 5 : ℚ) ≤ min 2 (max (-(2 / 5)) (bMag - vMag)) :=
    le_min (by norm_num) (le_max_left _ _)
  simp only [colorBucket, cppTruncToInt]
  split_ifs with h
  · congr 1
    ring
  · exfalso
    apply h
    have heq : (min 2 (max (-(2 / 5 : ℚ)) (bMag - vMag)) - -(2 / 5)) / (2 - -(2 / 5)) / (1 / 20)
        + 1 / 2 = (min 2 (max (-(2 / 5)) (bMag - vMag)) + 2 / 5) * (25 / 3) + 1 / 2 := by
      ring
    rw [heq]
    nlinarith [hx]

/-- The color-table index always lands in the interval [0, 20]. -/
theorem colorBucket_bounds (bMag vMag : ℚ) :
    0 ≤ colorBucket bMag vMag ∧ colorBucket bMag vMag ≤ 20 := by
  rw [colorBucket_eq_floor]
  have hx1 : -(2 / 5 : ℚ) ≤ min 2 (max (-(2 / 5)) (bMag - vMag)) :=
    le_min (by norm_num) (le_max_left _ _)
  have hx2 : min 2 (max (-(2 / 5 : ℚ)) (bMag - vMag)) ≤ 2 := min_le_left _ _
  constructor
  · exact Int.floor_nonneg.mpr (by nlinarith)
  · have hlt : ((min 2 (max (-(2 / 5 : ℚ)) (bMag - vMag)) + 2 / 5) * (25 / 3) + 1 / 2 : ℚ)
        < 21 := by nlinarith
    exact Int.lt_add_one_iff.mp (Int.floor_lt.mpr (by exact_mod_cast hlt))

/-- At or below the lower clamp boundary the bucket is 0. -/
theorem colorBucket_at_min (bMag vMag : ℚ) (hlo : bMag - vMag ≤ -(2 / 5)) :
    colorBucket bMag vMag = 0 := by
  rw [colorBucket_eq_floor, max_eq_left hlo, min_eq_right (by norm_num : -(2 / 5 : ℚ) ≤ 2)]
  rw [show (-(2 / 5 : ℚ) + 2 / 5) * (25 / 3) + 1 / 2 = 1 / 2 by norm_num]
  rw [Int.floor_eq_iff]
  norm_num

/-- At or above the upper clamp boundary the bucket is 20. -/
theorem colorBucket_at_max (bMag vMag : ℚ) (hhi : 2 ≤ bMag - vMag) :
    colorBucket bMag vMag = 20 := by
  rw [colorBucket_eq_floor, max_eq_right (le_trans (by norm_num) hhi), min_eq_left hhi]
  rw [show ((2 : ℚ) + 2 / 5) * (25 / 3) + 1 / 2 = 41 / 2 by norm_num]
  rw [Int.floor_eq_iff]
  norm_num

/-- Claim C5, counterexample: a record whose clamped B−V color index
equals the upper clamp boundary 2.0 (blue magnitude 2, visual magnitude 0)
selects table entry 20 (0xfff3ea), not the last entry (0xff5200) — the
normalization divides by the full range before dividing by the step, so
the bucket never exceeds 20. -/
theorem c5_color_boundary_counterexample :
    min (2 : ℚ) (max (-(2 / 5)) ((2 : ℚ) - 0)) = 2 ∧
    colorBucket 2 0 = 20 ∧
    starColor 2 0 = 0xfff3ea ∧
    mSpectralColors.getD (mSpectralColors.length - 1) 0 = 0xff5200 ∧
    starColor 2 0 ≠ mSpectralColors.getD (mSpectralColors.length - 1) 0 := by
  have h1 : min (2 : ℚ) (max (-(2 / 5)) ((2 : ℚ) - 0)) = 2 := by
    rw [show ((2 : ℚ) - 0) = 2 by norm_num,
      max_eq_right (by norm_num : -(2 / 5 : ℚ) ≤ 2), min_self]
  have h2 : colorBucket 2 0 = 20 := colorBucket_at_max 2 0 (by norm_num)
  have h3 : starColor 2 0 = 0xfff3ea := by
    simp only [starColor, h2]
    decide
  have h4 : mSpectralColors.getD (mSpectralColors.length - 1) 0 = 0xff5200 := by decide
  refine ⟨h1, h2, h3, h4, ?_⟩
  rw [h3, h4]
  decide

/-- Claim C5, amended: a clamped color index at the lower boundary −0.4
selects the first table entry; one at the upper boundary 2.0 selects
entry 20 (0xfff3ea), not the last entry; and any B−V value outside
[−0.4, 2.0] is clamped so the selected bucket always lies in [0, 20],
inside the 47-entry table. -/
theorem c5_color_boundary_amended (bMag vMag : ℚ) :
    (bMag - vMag ≤ -(2 / 5) → colorBucket bMag vMag = 0 ∧ starColor bMag vMag = 0x9bb2ff) ∧
    (2 ≤ bMag - vMag → colorBucket bMag vMag = 20 ∧ starColor bMag vMag = 0xfff3ea) ∧
    (0 ≤ colorBucket bMag vMag ∧ colorBucket bMag vMag ≤ 20) := by
  refine ⟨fun hlo => ?_, fun hhi => ?_, colorBucket_bounds bMag vMag⟩
  · refine ⟨colorBucket_at_min bMag vMag hlo, ?_⟩
    simp only [starColor, colorBucket_at_min bMag vMag hlo]
    decide
  · refine ⟨colorBucket_at_max bMag vMag hhi, ?_⟩
    simp only [starColor, colorBucket_at_max bMag vMag hhi]
    decide

/-- Witness for the amended claim C5 at the two clamp boundaries. -/
theorem c5_color_boundary_amended_witness :
    colorBucket (-(2 / 5)) 0 = 0 ∧ colorBucket 2 0 = 20 :=
  ⟨((c5_color_boundary_amended (-(2 / 5)) 0).1 (by norm_num)).1,
   ((c5_color_boundary_amended 2 0).2.1 (by norm_num)).1⟩

/-- Claim C9: for every star record the color-table index computed in
`buildStarVAO` from the clamped B−V difference is a non-negative integer
strictly below the 47-entry spectral table's length, so the table access
is always in bounds. -/
theorem c9_spectral_index_safe (bMag vMag : ℚ) :
    0 ≤ colorBucket bMag vMag ∧ colorBucket bMag vMag < (mSpectralColors.length : ℤ) := by
  obtain ⟨h0, h20⟩ := colorBucket_bounds bMag vMag
  exact ⟨h0, lt_of_le_of_lt h20 (by decide)⟩

/-- Claim C1: writing the star cache and reading it back under the same
compiled format version and the same configured catalog set is a hit and
returns the records unchanged, field for field and in order. -/
theorem c1_cache_roundtrip (cfg : CatalogCfg) (mStars : List StarRecord)
    (h : mStars.length < 2 ^ 32) :
    readStarCache cfg (writeStarCache cfg mStars) [] = (true, mStars) := by
  unfold readStarCache writeStarCache
  rw [if_neg (by simp), if_neg (by simp)]
  rw [Nat.mod_eq_of_lt h, List.take_length, Nat.sub_self, List.replicate_zero,
    List.append_nil, List.nil_append]

/-- Witness for claim C1 on a one-record Hipparcos-only cache. -/
theorem c1_cache_roundtrip_witness :
    readStarCache ⟨true, false, false, false⟩
      (writeStarCache ⟨true, false, false, false⟩ [⟨1, 2, 3, 4, 5⟩]) [] =
      (true, [⟨1, 2, 3, 4, 5⟩]) :=
  c1_cache_roundtrip ⟨true, false, false, false⟩ [⟨1, 2, 3, 4, 5⟩] (by norm_num)

/-- Claim C2: a cache file whose header version differs from the compiled
`cCacheVersion`, or whose catalog bitmask differs from the bitmask of the
configured catalog set, is a miss — `readStarCache` returns false and the
in-memory record list is unchanged. -/
theorem c2_cache_invalidation (cfg : CatalogCfg) (file : CacheFile)
    (mStars : List StarRecord)
    (h : file.version ≠ cCacheVersion ∨ file.catalogs ≠ catalogBitmask cfg) :
    readStarCache cfg file mStars = (false, mStars) := by
  unfold readStarCache
  rcases h with h | h
  · rw [if_pos h]
  · by_cases hv : file.version = cCacheVersion
    · rw [if_neg (by simp [hv]), if_pos h]
    · rw [if_pos hv]

/-- A successful character-level extraction determines the float value. -/
theorem fromStringFloat_parsed (s : String) (d : Decimal)
    (h : parseDecimal s = some d) : fromStringFloat s = some d.toRat := by
  rw [fromStringFloat, h, Option.map_some']

/-- A token whose extraction is the plain digit 1 has float value 1. -/
theorem fromStringFloat_one (s : String)
    (h : parseDecimal s = some ⟨false, 1, 0, 0, false, 0⟩) :
    fromStringFloat s = some 1 := by
  rw [fromStringFloat_parsed s _ h]
  norm_num [Decimal.toRat]

/-- Claim C3, counterexample: a Tycho line of 36 tokens, all `1`, has more
than 12 tokens and all four mandatory fields parse as floats, yet with a
Hipparcos catalog configured the parser appends zero records, because the
cross-reference token also parses as an integer and the de-duplication
rule skips the line. -/
theorem c3_line_rule_counterexample :
    12 < (List.replicate 36 ("1") : List String).length ∧
    (fromStringFloat (getItem (List.replicate 36 ("1"))
      (cColumnMapping CatalogType.eTycho CatalogColumn.eVmag))).isSome = true ∧
    (fromStringFloat (getItem (List.replicate 36 ("1"))
      (cColumnMapping CatalogType.eTycho CatalogColumn.eBmag))).isSome = true ∧
    (fromStringFloat (getItem (List.replicate 36 ("1"))
      (cColumnMapping CatalogType.eTycho CatalogColumn.eRect))).isSome = true ∧
    (fromStringFloat (getItem (List.replicate 36 ("1"))
      (cColumnMapping CatalogType.eTycho CatalogColumn.eDecl))).isSome = true ∧
    readStarsFromCatalogLine CatalogType.eTycho true (List.replicate 36 ("1")) = [] := by
  refine ⟨by decide, by decide, by decide, by decide, by decide, by decide⟩

/-- Claim C3, amended: provided the line is not taken by the Hipparcos
de-duplication skip, the parser appends exactly one record — with the
ascension mapped to (450° − ascension) in radians, the declination to
radians, and the parallax defaulting to 0 when its column is the absent
sentinel or does not parse — when the line has more than 12 tokens and
all four mandatory fields parse; and zero records when the line is short
or any of those four parses fails. -/
theorem c3_line_rule_amended (type : CatalogType) (loadHip : Bool)
    (items : List String)
    (hskip : ¬(type ≠ CatalogType.eHipparcos ∧ loadHip = true ∧
      (fromStringInt (getItem items (cColumnMapping type CatalogColumn.eHipp))).isSome = true)) :
    (∀ vmag bmag asc decl : ℚ,
      12 < items.length →
      fromStringFloat (getItem items (cColumnMapping type CatalogColumn.eVmag)) = some vmag →
      fromStringFloat (getItem items (cColumnMapping type CatalogColumn.eBmag)) = some bmag →
      fromStringFloat (getItem items (cColumnMapping type CatalogColumn.eRect)) = some asc →
      fromStringFloat (getItem items (cColumnMapping type CatalogColumn.eDecl)) = some decl →
      readStarsFromCatalogLine type loadHip items =
        [⟨vmag, bmag, (360 + 90 - asc) / 180 * vistaPi, decl / 180 * vistaPi,
          if 0 < cColumnMapping type CatalogColumn.ePara then
            (fromStringFloat (getItem items (cColumnMapping type CatalogColumn.ePara))).getD 0
          else 0⟩]) ∧
    (items.length ≤ 12 → readStarsFromCatalogLine type loadHip items = []) ∧
    ((fromStringFloat (getItem items (cColumnMapping type CatalogColumn.eVmag)) = none ∨
      fromStringFloat (getItem items (cColumnMapping type CatalogColumn.eBmag)) = none ∨
      fromStringFloat (getItem items (cColumnMapping type CatalogColumn.eRect)) = none ∨
      fromStringFloat (getItem items (cColumnMapping type CatalogColumn.eDecl)) = none) →
      readStarsFromCatalogLine type loadHip items = []) := by
  refine ⟨?_, ?_, ?_⟩
  · intro vmag bmag asc decl h12 hv hb ha hd
    unfold readStarsFromCatalogLine
    rw [if_pos h12, if_neg hskip, hv, hb, ha, hd]
  · intro hle
    unfold readStarsFromCatalogLine
    rw [if_neg (by omega)]
  · intro hfail
    unfold readStarsFromCatalogLine
    by_cases h12 : 12 < items.length
    · rw [if_pos h12, if_neg hskip]
      rcases hv : fromStringFloat (getItem items (cColumnMapping type CatalogColumn.eVmag))
        with _ | vmag <;>
      rcases hb : fromStringFloat (getItem items (cColumnMapping type CatalogColumn.eBmag))
        with _ | bmag <;>
      rcases ha : fromStringFloat (getItem items (cColumnMapping type CatalogColumn.eRect))
        with _ | asc <;>
      rcases hd : fromStringFloat (getItem items (cColumnMapping type CatalogColumn.eDecl))
        with _ | decl <;>
      simp_all
    · rw [if_neg h12]

/-- Witness for the amended claim C3: a well-formed 35-token Hipparcos
line yields exactly one record. -/
theorem c3_line_rule_amended_witness :
    (readStarsFromCatalogLine CatalogType.eHipparcos true
      (List.replicate 35 ("1"))).length = 1 := by
  have h := (c3_line_rule_amended CatalogType.eHipparcos true (List.replicate 35 ("1"))
    (by decide)).1 1 1 1 1 (by decide)
    (fromStringFloat_one _ (by decide)) (fromStringFloat_one _ (by decide))
    (fromStringFloat_one _ (by decide)) (fromStringFloat_one _ (by decide))
  rw [h]
  rfl

/-- Claim C4: with a Hipparcos catalog configured, a non-Hipparcos line
whose cross-reference token parses as an integer is skipped, so a star
present in both the Hipparcos catalog and a secondary catalog yields
exactly one record when both are loaded together. -/
theorem c4_dedup (type : CatalogType) (items : List String)
    (h1 : type ≠ CatalogType.eHipparcos)
    (h2 : 12 < items.length)
    (h3 : (fromStringInt (getItem items
      (cColumnMapping type CatalogColumn.eHipp))).isSome = true) :
    readStarsFromCatalogLine type true items = [] ∧
    ∀ hipItems : List String,
      (readStarsFromCatalogLine CatalogType.eHipparcos true hipItems).length = 1 →
      (readStarsFromCatalogLine CatalogType.eHipparcos true hipItems ++
        readStarsFromCatalogLine type true items).length = 1 := by
  have hskip : readStarsFromCatalogLine type true items = [] := by
    unfold readStarsFromCatalogLine
    rw [if_pos h2, if_pos ⟨h1, rfl, h3⟩]
  refine ⟨hskip, fun hipItems hlen => ?_⟩
  rw [List.length_append, hskip, hlen]
  rfl

/-- Witness for claim C4: the same star (all tokens `1`) once in a
Hipparcos line and once in a Tycho line produces one record in total. -/
theorem c4_dedup_witness :
    readStarsFromCatalogLine CatalogType.eTycho true (List.replicate 36 ("1")) = [] ∧
    (readStarsFromCatalogLine CatalogType.eHipparcos true (List.replicate 35 ("1")) ++
      readStarsFromCatalogLine CatalogType.eTycho true (List.replicate 36 ("1"))).length = 1 := by
  have h := c4_dedup CatalogType.eTycho (List.replicate 36 ("1"))
    (by decide) (by decide) (by decide)
  exact ⟨h.1, h.2 (List.replicate 35 ("1")) (by decide)⟩

/-- Witness for claim C2: a cache file with version 2 is a miss for a
Hipparcos-only configuration compiled with version 3. -/
theorem c2_cache_invalidation_witness :
    readStarCache ⟨true, false, false, false⟩ ⟨2, 1, 0, []⟩ [zeroStar] =
      (false, [zeroStar]) :=
  c2_cache_invalidation ⟨true, false, false, false⟩ ⟨2, 1, 0, []⟩ [zeroStar]
    (Or.inl (by decide))

/-- Claim C6, counterexample: with Hipparcos and Gaia both configured the
orchestrator reads the Gaia catalog — and only the Gaia catalog — rather
than skipping it in favour of the others as the claim states. -/
theorem c6_gaia_conflict_counterexample :
    loadedCatalogs ⟨true, false, false, true⟩ = [CatalogType.eGaia] ∧
    CatalogType.eGaia ∈ loadedCatalogs ⟨true, false, false, true⟩ ∧
    CatalogType.eHipparcos ∉ loadedCatalogs ⟨true, false, false, true⟩ ∧
    1 < cfgSize ⟨true, false, false, true⟩ := by
  decide

/-- Claim C6, amended: whenever Gaia is configured the orchestrator loads
exactly the Gaia catalog and no other; if any other catalog is configured
alongside it, the conflict error is logged (after Gaia has already been
read), and with Gaia alone no error is logged. -/
theorem c6_gaia_conflict_amended (c : CatalogCfg) (h : c.gaia = true) :
    loadedCatalogs c = [CatalogType.eGaia] ∧
    (1 < cfgSize c → gaiaConflictLogged c = true) ∧
    (cfgSize c ≤ 1 → gaiaConflictLogged c = false) := by
  refine ⟨by simp [loadedCatalogs, h], ?_, ?_⟩
  · intro hlt
    unfold gaiaConflictLogged
    rw [h]
    simp [hlt]
  · intro hle
    unfold gaiaConflictLogged
    rw [h]
    simp
    omega

/-- Witness for the amended claim C6 on the Hipparcos + Gaia set. -/
theorem c6_gaia_conflict_amended_witness :
    loadedCatalogs ⟨true, false, false, true⟩ = [CatalogType.eGaia] ∧
    gaiaConflictLogged ⟨true, false, false, true⟩ = true := by
  have h := c6_gaia_conflict_amended ⟨true, false, false, true⟩ rfl
  exact ⟨h.1, h.2.1 (by decide)⟩

/-- Claim C7: a setter called with a value different from the current one
sets the dirty flag and does not itself recompile; a setter called with
the current value changes nothing; `Do` recompiles exactly when the flag
is set, from the current draw mode and HDR flag, and clears it, so a
second `Do` with unchanged settings never recompiles. -/
theorem c7_shader_variant_state (s : ShaderState) (v : DrawMode) (b : Bool) :
    (v ≠ s.mDrawMode →
      (setDrawMode v s).mShaderDirty = true ∧ (setDrawMode v s).mCompiled = s.mCompiled) ∧
    (v = s.mDrawMode → setDrawMode v s = s) ∧
    (b ≠ s.mEnableHDR →
      (setEnableHDR b s).mShaderDirty = true ∧ (setEnableHDR b s).mCompiled = s.mCompiled) ∧
    (b = s.mEnableHDR → setEnableHDR b s = s) ∧
    (starsDo s).2 = s.mShaderDirty ∧
    (starsDo s).1.mShaderDirty = false ∧
    (s.mShaderDirty = true → (starsDo s).1.mCompiled = some (s.mDrawMode, s.mEnableHDR)) ∧
    (starsDo (starsDo s).1).2 = false := by
  refine ⟨?_, ?_, ?_, ?_, ?_, ?_, ?_, ?_⟩
  · intro h
    unfold setDrawMode
    rw [if_pos (Ne.symm h)]
    exact ⟨rfl, rfl⟩
  · intro h
    unfold setDrawMode
    rw [if_neg (fun hne => hne h.symm)]
  · intro h
    unfold setEnableHDR
    rw [if_pos (Ne.symm h)]
    exact ⟨rfl, rfl⟩
  · intro h
    unfold setEnableHDR
    rw [if_neg (fun hne => hne h.symm)]
  · cases hval : s.mShaderDirty <;> simp [starsDo, hval]
  · cases hval : s.mShaderDirty <;> simp [starsDo, hval]
  · intro h
    simp [starsDo, h]
  · cases hval : s.mShaderDirty <;> simp [starsDo, hval]

/-- Witness for claim C7 starting from a dirty default state. -/
theorem c7_shader_variant_state_witness :
    (setDrawMode DrawMode.ePoint ⟨DrawMode.eSmoothDisc, false, true, none⟩).mShaderDirty = true ∧
    (setEnableHDR true ⟨DrawMode.eSmoothDisc, false, true, none⟩).mShaderDirty = true ∧
    (starsDo ⟨DrawMode.eSmoothDisc, false, true, none⟩).2 = true ∧
    (starsDo (starsDo ⟨DrawMode.eSmoothDisc, false, true, none⟩).1).2 = false := by
  have h := c7_shader_variant_state ⟨DrawMode.eSmoothDisc, false, true, none⟩ DrawMode.ePoint true
  exact ⟨(h.1 (by decide)).1, (h.2.2.1 (by decide)).1,
    by rw [h.2.2.2.2.1], h.2.2.2.2.2.2.2⟩

/-- Claim C8 is broken in the code: the running maximum in `buildStarVAO`
is seeded with `std::numeric_limits<float>::min()` — the smallest positive
float, not the lowest one — so for a star set whose visual magnitudes are
all negative (one star of magnitude −1 here) the exposed maximum stays at
2^(−126) instead of the true maximum −1.  The minimum, seeded with the
float maximum, is correct. -/
theorem c8_loaded_max_bug :
    (buildStarVAORange [⟨-1, 0, 0, 0, 0⟩]).1 = -1 ∧
    (buildStarVAORange [⟨-1, 0, 0, 0, 0⟩]).2 = floatMinQ ∧
    floatMinQ ≠ -1 := by
  refine ⟨?_, ?_, ?_⟩
  · show min floatMaxQ (-1 : ℚ) = -1
    exact min_eq_right (by norm_num [floatMaxQ])
  · show max floatMinQ (-1 : ℚ) = floatMinQ
    exact max_eq_left (by norm_num [floatMinQ])
  · norm_num [floatMinQ]

/-- Claim C10, counterexample: a 13-token Hipparcos line passes the
`> 12` guard, yet the visual-magnitude lookup dereferences index 34,
outside the token vector. -/
theorem c10_token_bounds_counterexample :
    12 < (List.replicate 13 ("1") : List String).length ∧
    ¬ accessesInBounds CatalogType.eHipparcos true (List.replicate 13 ("1")) := by
  exact ⟨by decide, by decide⟩

/-- Claim C10, amended: the accesses are in bounds provided the line has
more tokens than the catalog's largest mapped column index (35 tokens for
Hipparcos and Tycho, 24 for Tycho2, 56 for Gaia) and the Gaia
cross-reference lookup — whose mapping entry is −1 — is never taken,
i.e. Gaia is not parsed while a Hipparcos catalog is configured. -/
theorem c10_token_bounds_amended (type : CatalogType) (loadHip : Bool)
    (items : List String)
    (h1 : minSafeTokens type ≤ items.length)
    (h2 : ¬(type = CatalogType.eGaia ∧ loadHip = true)) :
    accessesInBounds type loadHip items := by
  intro i hi
  have h12 : 12 < items.length := by
    cases type <;> simp only [minSafeTokens] at h1 <;> omega
  unfold accessedColumns at hi
  rw [if_pos h12] at hi
  cases type with
  | eHipparcos =>
    simp only [minSafeTokens] at h1
    simp [cColumnMapping] at hi
    rcases hi with rfl | rfl | rfl | rfl | rfl <;> constructor <;> omega
  | eTycho =>
    simp only [minSafeTokens] at h1
    by_cases hl : loadHip = true
    · by_cases hp : (fromStringInt (getItem items 31)).isSome = true
      · simp [cColumnMapping, hl, hp] at hi
        subst hi
        constructor <;> omega
      · simp [cColumnMapping, hl, hp] at hi
        rcases hi with rfl | rfl | rfl | rfl | rfl | rfl <;> constructor <;> omega
    · simp [cColumnMapping, hl] at hi
      rcases hi with rfl | rfl | rfl | rfl | rfl <;> constructor <;> omega
  | eTycho2 =>
    simp only [minSafeTokens] at h1
    by_cases hl : loadHip = true
    · by_cases hp : (fromStringInt (getItem items 23)).isSome = true
      · simp [cColumnMapping, hl, hp] at hi
        subst hi
        constructor <;> omega
      · simp [cColumnMapping, hl, hp] at hi
        rcases hi with rfl | rfl | rfl | rfl | rfl <;> constructor <;> omega
    · simp [cColumnMapping, hl] at hi
      rcases hi with rfl | rfl | rfl | rfl <;> constructor <;> omega
  | eGaia =>
    simp only [minSafeTokens] at h1
    have hl : loadHip = false := by
      cases hb : loadHip
      · rfl
      · exact absurd ⟨rfl, hb⟩ h2
    simp [cColumnMapping, hl] at hi
    rcases hi with rfl | rfl | rfl | rfl | rfl <;> constructor <;> omega

/-- Witness for the amended claim C10: a 35-token Tycho line with a
Hipparcos catalog configured is accessed fully in bounds. -/
theorem c10_token_bounds_amended_witness :
    accessesInBounds CatalogType.eTycho true (List.replicate 35 ("1")) :=
  c10_token_bounds_amended CatalogType.eTycho true (List.replicate 35 ("1"))
    (by decide) (by decide)
